import Mathlib

/-!
Verification of the Order Classification & Consolidation Engine of the
Filtro_csv_para_carga_manual repository.

The engine lives in `src/FiltroArgentina.py` (`procesar_archivo`, lines 11-196)
and `src/filtroAndreani.py` (`procesar_archivo`, lines 30-218); the statistics
total is computed in `src/Ventana_de_estado.py` (`actualizar_estadisticas`,
line 346), and the caller's sort contract is at `Ventana_de_estado.py` line 398.

The embedding is shallow: a pandas cell is a `Cell` (missing value, string, or
number), an order line is a `Row` holding the columns the classification reads,
and the four classification loops become the pure passes `pass1` .. `pass4`.
The loops read only source-table fields (never the Status being written), so
classification factors into a per-row function `classifyRow`.  Python code that
can raise (`note.strip()` on a non-string, pandas `KeyError` on a missing
column) is embedded in the `Except String` monad.

A second, column-indexed embedding (`RawFrame`, `procesarArchivoFrame`)
follows the source's dynamic column accesses literally, so that schema errors
(missing columns) can be stated; it is used for the error-handling claim.
-/

deriving instance DecidableEq for Except

/-- One pandas cell: a missing value (NaN), a string, or a number.  Numbers are
modelled as integers; the classification code never does arithmetic on them. -/
inductive Cell where
  | null
  | str (s : String)
  | num (n : Int)
deriving DecidableEq, Repr

/-- Python `str(x)` / pandas `astype(str)` as used by the source: a missing
value renders as the literal string "nan". -/
def pyStr : Cell → String
  | Cell.null => "nan"
  | Cell.str s => s
  | Cell.num n => toString n

/-- Remove every occurrence of the character `c` from `s`.  This embeds the
pandas `Series.str.replace(x, "")` calls of the source, whose `x` is always a
single-character literal (`"."` or `" "`). -/
def removeChar (c : Char) (s : String) : String :=
  String.mk (s.data.filter (fun a => a ≠ c))

/-- Lines 69-70 of FiltroArgentina.py (and 119-120 of filtroAndreani.py):
`astype(str)`, then delete every `'.'`, then delete every `' '`. -/
def strippedCompany (c : Cell) : String :=
  removeChar ' ' (removeChar '.' (pyStr c))

/-- Python `str.isnumeric()` restricted to ASCII digits: true iff the string is
non-empty and all of its characters are digits. -/
def pyIsNumeric (s : String) : Bool :=
  !s.isEmpty && s.data.all Char.isDigit

/-- Does the character list `s` start with the character list `pat`? -/
def listStarts : List Char → List Char → Bool
  | [], _ => true
  | _ :: _, [] => false
  | a :: as, b :: bs => a = b && listStarts as bs

/-- Python `s.startswith(pat)`, computed on the underlying character lists. -/
def strStarts (s pat : String) : Bool :=
  listStarts pat.data s.data

/-- The whitespace characters stripped by Python `str.strip()`. -/
def pySpace (c : Char) : Bool :=
  c = ' ' || c = '\t' || c = '\n' || c = '\r' || c = '\x0b' || c = '\x0c'

/-- Python `str.strip()`: drop leading and trailing whitespace. -/
def pyStrip (s : String) : String :=
  String.mk (((s.data.dropWhile pySpace).reverse.dropWhile pySpace).reverse)

/-- The postal-code prefixes tested at lines 104 and 117 of FiltroArgentina.py
(and 156, 167 of filtroAndreani.py). -/
def cabaZipStarts : List String :=
  ["C14", "C11", "C10", "C12", "C15", "C13", "'15", "'14", "'13", "'12",
   "'11", "'10", "15", "14", "13", "12", "11", "10"]

/-- `str(row['Shipping Zip']).startswith((...))` with the tuple of CABA
prefixes. -/
def zipCABA (z : String) : Bool :=
  cabaZipStarts.any (fun p => strStarts z p)

/-- The exact shipping-method string tested at lines 108 and 117. -/
def prioMethod : String :=
  "Envío Prioritario + Garantía extendida"

/-- One line of the input table, with the columns `procesar_archivo` reads.
`name` is the `'Name'` column (the order id) and `province`,
`financial_status`, `shipping_method` are the columns the code only ever
compares against string literals, so they are modelled as strings (a non-string
cell compares unequal to every literal in Python, exactly like a string that
matches no literal).  `zip`, `shipping_company`, `notes` and the passive
columns keep the full `Cell` type because the code inspects their dynamic
type (`isinstance`, `pd.notnull`) or stringifies them. -/
structure Row where
  name : String
  shipping_name : Cell
  created_at : Cell
  quantity : Cell
  item_name : Cell
  total : Cell
  province : String
  street : Cell
  zip : Cell
  phone : Cell
  email : Cell
  sku : Cell
  financial_status : String
  shipping_method : String
  shipping_company : Cell
  notes : Cell
deriving DecidableEq, Repr

/-- Lines 69-70 of FiltroArgentina.py: the in-place normalization of the
`'Shipping Company'` column of the INPUT table (all `'.'` and `' '` characters
removed, value re-written as a string). -/
def normalizeRow (r : Row) : Row :=
  { r with shipping_company := Cell.str (strippedCompany r.shipping_company) }

/-- Lines 119-126 of filtroAndreani.py: the Andreani processor additionally
fills missing `'Shipping Name'` cells with `""` and deletes `"nan"` from the
stringified phone; its `'Shipping Company'` normalization is the same as
FiltroArgentina's. -/
def normalizeRowA (r : Row) : Row :=
  { r with shipping_company := Cell.str (strippedCompany r.shipping_company),
           shipping_name := match r.shipping_name with
                            | Cell.null => Cell.str ""
                            | c => c,
           phone := Cell.str ((pyStr r.phone).replace "nan" "") }

/-- The `elif` chain of BUCLE 1 (lines 90-95): fixed statuses for the
non-paid financial states. -/
def pass1Elif (r : Row) (st : String) : String :=
  if r.financial_status = "expired" then "VENCIDO"
  else if r.financial_status = "refunded" then "REEMBOLSADO"
  else if r.financial_status = "pending" then "FALTA PAGAR"
  else st

/-- BUCLE 1 (lines 79-95): DNI validation for paid lines, fixed statuses for
expired/refunded/pending.  The `isinstance(..., str)` test is the match on
`Cell.str`; note that the startswith test runs on the ALREADY NORMALIZED
company value (lines 69-70 strip every space first). -/
def pass1 (r : Row) (st : String) : String :=
  match r.shipping_company with
  | Cell.str s =>
      if r.financial_status = "paid" then
        if strStarts s "DNI " then st
        else if pyIsNumeric s then st
        else "REVISAR DNI"
      else pass1Elif r st
  | _ =>
      if r.financial_status = "paid" then st else pass1Elif r st

/-- BUCLE 2 (lines 102-109): CABA by postal code, else priority shipping. -/
def pass2 (r : Row) (st : String) : String :=
  if r.financial_status = "paid" && zipCABA (pyStr r.zip) then "CABA"
  else if r.financial_status = "paid" && r.shipping_method = prioMethod then
    "PRIORITARIO"
  else st

/-- BUCLE 3 (lines 116-118): combined CABA + priority. -/
def pass3 (r : Row) (st : String) : String :=
  if r.financial_status = "paid" && r.shipping_method = prioMethod
      && zipCABA (pyStr r.zip) then "CABA PRIORITARIO"
  else st

/-- BUCLE 4 (lines 125-133): notes check, else Tierra del Fuego.  The Python
condition is `paid and pd.notnull(note) and note.strip()`; when the note cell
is a non-null non-string, `note.strip()` raises AttributeError (a number has
no `strip` method).  Short-circuiting means this can only happen on paid
lines. -/
def pass4 (r : Row) (st : String) : Except String String :=
  if r.financial_status = "paid" then
    match r.notes with
    | Cell.null =>
        pure (if r.province = "Tierra del Fuego" then "TIERRA DEL FUEGO" else st)
    | Cell.str s =>
        if pyStrip s ≠ "" then pure "REVISAR NOTAS EN SHOPIFY"
        else pure (if r.province = "Tierra del Fuego" then "TIERRA DEL FUEGO" else st)
    | Cell.num _ => Except.error "AttributeError: no strip on a number"
  else pure st

/-- The status a line holds after the four classification loops.  The loops
read only source-table columns (never the Status column being written), so
they compose into one per-row function; every line starts at status `""`
(line 48). -/
def classifyRow (r : Row) : Except String String :=
  pass4 r (pass3 r (pass2 r (pass1 r "")))

/-- Sequential effectful map, embedding a Python `for` loop over the rows:
the first raising row aborts the whole run. -/
def mapE (f : α → Except String β) : List α → Except String (List β)
  | [] => Except.ok []
  | a :: as =>
    match f a with
    | Except.error e => Except.error e
    | Except.ok b =>
      match mapE f as with
      | Except.error e => Except.error e
      | Except.ok bs => Except.ok (b :: bs)

/-- Line 146 / `assign_status` (lines 141-146): group by `'Name'` and give
every line of a group the status of the group's first line.  `groupby`
preserves the relative order of rows inside each group, so "first" means
earliest position in the table; the result is represented in input row order
(pandas re-emits the groups sorted by key, which coincides with the input
order for the (`Name` ascending)-sorted tables the caller hands in,
Ventana_de_estado.py line 398). -/
def consolidateTable (l : List (Row × String)) : List (Row × String) :=
  l.map (fun p => (p.1, ((l.find? (fun q => q.1.name = p.1.name)).getD p).2))

/-- FiltroArgentina.procesar_archivo (lines 11-196), restricted to what it does
to order data: normalize the input table's `'Shipping Company'` in place
(lines 69-70), run the four classification loops (lines 79-133), consolidate
per order (line 146).  Returns the mutated input table together with the final
per-line statuses; date formatting and the output-only projection columns
carry no status information and are omitted. -/
def procesarArchivo (t : List Row) : Except String (List Row × List String) :=
  match mapE classifyRow (t.map normalizeRow) with
  | Except.error e => Except.error e
  | Except.ok sts =>
      Except.ok (t.map normalizeRow,
        (consolidateTable ((t.map normalizeRow).zip sts)).map (fun p => p.2))

/-- filtroAndreani.procesar_archivo (lines 30-218), same restriction: its
normalization (lines 119-126) also touches `'Shipping Name'` and
`'Shipping Phone'`, its four classification loops (lines 132-181) are
textually identical to FiltroArgentina's, and its consolidation (line 208) is
the same `groupby('Name').apply(assign_status)`. -/
def procesarArchivoAndreani (t : List Row) : Except String (List Row × List String) :=
  match mapE classifyRow (t.map normalizeRowA) with
  | Except.error e => Except.error e
  | Except.ok sts =>
      Except.ok (t.map normalizeRowA,
        (consolidateTable ((t.map normalizeRowA).zip sts)).map (fun p => p.2))

/-- Number of distinct order ids among the pairs (order id, final status)
whose status is `k`: `len(df[df['Status'] == k]['Name'].unique())`,
lines 163-183 of FiltroArgentina.py. -/
def countDistinct (l : List (String × String)) (k : String) : Nat :=
  (((l.filter (fun p => p.2 = k)).map (fun p => p.1)).dedup).length

/-- The seven per-category order counts FiltroArgentina.py computes at
lines 163-183 and hands to the statistics display. -/
structure Stats where
  caba : Nat
  falta_pagar : Nat
  vencido : Nat
  reembolsado : Nat
  notas : Nat
  revisar_dni : Nat
  sin_clasificar : Nat
deriving DecidableEq, Repr

/-- Lines 163-193: the statistics computed on the consolidated table, as
(order id, final status) pairs. -/
def computeStats (l : List (String × String)) : Stats :=
  { caba := countDistinct l "CABA"
    falta_pagar := countDistinct l "FALTA PAGAR"
    vencido := countDistinct l "VENCIDO"
    reembolsado := countDistinct l "REEMBOLSADO"
    notas := countDistinct l "REVISAR NOTAS EN SHOPIFY"
    revisar_dni := countDistinct l "REVISAR DNI"
    sin_clasificar := countDistinct l "" }

/-- Ventana_de_estado.actualizar_estadisticas, line 346: the displayed total is
the SUM of the seven per-category counts. -/
def statsTotal (s : Stats) : Nat :=
  s.caba + s.falta_pagar + s.vencido + s.reembolsado + s.notas
    + s.sin_clasificar + s.revisar_dni

/-!
Column-indexed embedding, used for the error-handling claim: a `RawFrame` is a
pandas DataFrame as a list of named columns, and `procesarArchivoFrame`
performs the source's column accesses in source order, raising `KeyError`
(as `Except.error`) exactly where the Python would.
-/

/-- A raw pandas DataFrame: a row count and named columns of cells. -/
structure RawFrame where
  nrows : Nat
  cols : List (String × List Cell)
deriving DecidableEq, Repr

/-- Does the frame have a column named `c`? -/
def hasCol (f : RawFrame) (c : String) : Bool :=
  f.cols.any (fun p => p.1 = c)

/-- The cells of column `c` (empty when absent; guarded by `requireCol` at
every use). -/
def colCells (f : RawFrame) (c : String) : List Cell :=
  ((f.cols.find? (fun p => p.1 = c)).map (fun p => p.2)).getD []

/-- A pandas column access: `KeyError` when the column is absent. -/
def requireCol (f : RawFrame) (c : String) : Except String Unit :=
  if hasCol f c then Except.ok () else Except.error ("KeyError: " ++ c)

/-- `row[c]` for row index `i`: `KeyError` when the column is absent. -/
def cellAt (f : RawFrame) (c : String) (i : Nat) : Except String Cell :=
  match requireCol f c with
  | Except.error e => Except.error e
  | Except.ok _ => Except.ok ((colCells f c).getD i Cell.null)

/-- Overwrite column `c` (always preceded by a read in the source, so the
column exists). -/
def setCol (f : RawFrame) (c : String) (cells : List Cell) : RawFrame :=
  { f with cols := f.cols.map (fun p => if p.1 = c then (c, cells) else p) }

/-- The twelve columns selected at line 13 of FiltroArgentina.py; their absence
raises before anything else runs. -/
def selectedCols : List String :=
  ["Created at", "Name", "Shipping Name", "Lineitem quantity", "Lineitem name",
   "Total", "Shipping Province Name", "Shipping Street", "Shipping Zip",
   "Shipping Phone", "Email", "Lineitem sku"]

/-- Every column `procesar_archivo` reads: the twelve selected ones plus the
four accessed during normalization and classification. -/
def requiredCols : List String :=
  selectedCols ++ ["Shipping Company", "Financial Status", "Shipping Method", "Notes"]

/-- BUCLE 1 body at row `i` (lines 79-95): reads `'Shipping Company'` then
`'Financial Status'`; returns the new status for the row, or `none` when the
row's status is left untouched. -/
def loopBody1 (f : RawFrame) (i : Nat) : Except String (Option String) :=
  match cellAt f "Shipping Company" i with
  | Except.error e => Except.error e
  | Except.ok comp =>
    match cellAt f "Financial Status" i with
    | Except.error e => Except.error e
    | Except.ok fs =>
      match comp with
      | Cell.str s =>
          if fs = Cell.str "paid" then
            if strStarts s "DNI " then Except.ok none
            else if pyIsNumeric s then Except.ok none
            else Except.ok (some "REVISAR DNI")
          else if fs = Cell.str "expired" then Except.ok (some "VENCIDO")
          else if fs = Cell.str "refunded" then Except.ok (some "REEMBOLSADO")
          else if fs = Cell.str "pending" then Except.ok (some "FALTA PAGAR")
          else Except.ok none
      | _ =>
          if fs = Cell.str "paid" then Except.ok none
          else if fs = Cell.str "expired" then Except.ok (some "VENCIDO")
          else if fs = Cell.str "refunded" then Except.ok (some "REEMBOLSADO")
          else if fs = Cell.str "pending" then Except.ok (some "FALTA PAGAR")
          else Except.ok none

/-- BUCLE 2 body at row `i` (lines 102-109).  Python short-circuiting is kept:
`'Shipping Zip'` is only read on paid rows, `'Shipping Method'` only on paid
rows whose zip is not a CABA match. -/
def loopBody2 (f : RawFrame) (i : Nat) : Except String (Option String) :=
  match cellAt f "Financial Status" i with
  | Except.error e => Except.error e
  | Except.ok fs =>
    if fs = Cell.str "paid" then
      match cellAt f "Shipping Zip" i with
      | Except.error e => Except.error e
      | Except.ok z =>
        if zipCABA (pyStr z) then Except.ok (some "CABA")
        else
          match cellAt f "Shipping Method" i with
          | Except.error e => Except.error e
          | Except.ok m =>
            if m = Cell.str prioMethod then Except.ok (some "PRIORITARIO")
            else Except.ok none
    else Except.ok none

/-- BUCLE 3 body at row `i` (lines 116-118). -/
def loopBody3 (f : RawFrame) (i : Nat) : Except String (Option String) :=
  match cellAt f "Financial Status" i with
  | Except.error e => Except.error e
  | Except.ok fs =>
    if fs = Cell.str "paid" then
      match cellAt f "Shipping Method" i with
      | Except.error e => Except.error e
      | Except.ok m =>
        if m = Cell.str prioMethod then
          match cellAt f "Shipping Zip" i with
          | Except.error e => Except.error e
          | Except.ok z =>
            if zipCABA (pyStr z) then Except.ok (some "CABA PRIORITARIO")
            else Except.ok none
        else Except.ok none
    else Except.ok none

/-- BUCLE 4 body at row `i` (lines 125-133): reads `'Notes'` unconditionally
(line 126), then `'Financial Status'`; on a paid row with a non-null
non-string note, `note.strip()` raises AttributeError. -/
def loopBody4 (f : RawFrame) (i : Nat) : Except String (Option String) :=
  match cellAt f "Notes" i with
  | Except.error e => Except.error e
  | Except.ok note =>
    match cellAt f "Financial Status" i with
    | Except.error e => Except.error e
    | Except.ok fs =>
      if fs = Cell.str "paid" then
        match note with
        | Cell.null =>
            match cellAt f "Shipping Province Name" i with
            | Except.error e => Except.error e
            | Except.ok p =>
              if p = Cell.str "Tierra del Fuego" then Except.ok (some "TIERRA DEL FUEGO")
              else Except.ok none
        | Cell.str s =>
            if pyStrip s ≠ "" then Except.ok (some "REVISAR NOTAS EN SHOPIFY")
            else
              match cellAt f "Shipping Province Name" i with
              | Except.error e => Except.error e
              | Except.ok p =>
                if p = Cell.str "Tierra del Fuego" then Except.ok (some "TIERRA DEL FUEGO")
                else Except.ok none
        | Cell.num _ => Except.error "AttributeError: no strip on a number"
      else Except.ok none

/-- Run one classification loop over all rows: the loop writes the Status
column, which no loop condition reads, so the per-row updates (`some` = the
`loc` assignment, `none` = untouched) apply to the statuses afterwards. -/
def runLoop (body : Nat → Except String (Option String)) (n : Nat)
    (sts : List String) : Except String (List String) :=
  match mapE body (List.range n) with
  | Except.error e => Except.error e
  | Except.ok upds => Except.ok ((sts.zip upds).map (fun p => p.2.getD p.1))

/-- The per-order status unification on (name cell, status) pairs: `groupby`
drops rows whose `'Name'` is missing, and each surviving row takes the status
of the first row with the same name. -/
def consolidateCellNS (l : List (Cell × String)) : List (Cell × String) :=
  l.map (fun p => (p.1, ((l.find? (fun q => q.1 = p.1)).getD p).2))

/-- FiltroArgentina.procesar_archivo over a raw frame, performing the source's
column accesses in source order: the selection of line 13, the in-place
normalization of lines 69-70, the four classification loops, and the
consolidation of line 146 (statuses keyed by the `'Name'` cells, null names
dropped by `groupby`).  The result is the consolidated (name, status) list;
everything after it (phone formatting, statistics, export) reads only columns
created by the function itself. -/
def procesarArchivoFrame (f : RawFrame) : Except String (List (Cell × String)) :=
  match mapE (fun c => requireCol f c) selectedCols with
  | Except.error e => Except.error e
  | Except.ok _ =>
    match requireCol f "Shipping Company" with
    | Except.error e => Except.error e
    | Except.ok _ =>
      let f2 := setCol f "Shipping Company"
        ((colCells f "Shipping Company").map (fun c => Cell.str (strippedCompany c)))
      match runLoop (loopBody1 f2) f2.nrows (List.replicate f2.nrows "") with
      | Except.error e => Except.error e
      | Except.ok s1 =>
        match runLoop (loopBody2 f2) f2.nrows s1 with
        | Except.error e => Except.error e
        | Except.ok s2 =>
          match runLoop (loopBody3 f2) f2.nrows s2 with
          | Except.error e => Except.error e
          | Except.ok s3 =>
            match runLoop (loopBody4 f2) f2.nrows s3 with
            | Except.error e => Except.error e
            | Except.ok s4 =>
              let names := colCells f2 "Name"
              let pairs := ((List.range f2.nrows).map
                (fun i => (names.getD i Cell.null, s4.getD i ""))).filter
                (fun p => p.1 ≠ Cell.null)
              Except.ok (consolidateCellNS pairs)

/-- A row with neutral values in every field, the base for the concrete
inputs below. -/
def defaultRow : Row :=
  { name := "", shipping_name := Cell.null, created_at := Cell.null,
    quantity := Cell.null, item_name := Cell.null, total := Cell.null,
    province := "", street := Cell.null, zip := Cell.null,
    phone := Cell.null, email := Cell.null, sku := Cell.null,
    financial_status := "", shipping_method := "",
    shipping_company := Cell.null, notes := Cell.null }

/-- The caller's sort order (Ventana_de_estado.py line 398):
`sort_values(by=['Name', 'Shipping Name'], ascending=[True, False])`. -/
def rowOrder (a b : Row) : Prop :=
  a.name < b.name ∨ (a.name = b.name ∧ pyStr b.shipping_name ≤ pyStr a.shipping_name)

/-- Notes cell that is blank in the sense of BUCLE 4: missing, or a string
that strips to empty. -/
def blankNotes (c : Cell) : Prop :=
  c = Cell.null ∨ ∃ s, c = Cell.str s ∧ pyStrip s = ""

/-- Notes cell on which `note.strip()` does not raise: anything but a
number. -/
def noteSafe : Cell → Bool
  | Cell.num _ => false
  | _ => true

/-- The seven status keys counted by the statistics block
(lines 163-183; `""` is the sin-clasificar bucket). -/
def countedKeys : List String :=
  ["CABA", "FALTA PAGAR", "VENCIDO", "REEMBOLSADO", "REVISAR NOTAS EN SHOPIFY",
   "REVISAR DNI", ""]

/-- Number of distinct order ids among `l` that have a line with status `k`
(the spec's "number of distinct order_id values whose status equals that
key"). -/
def ordersWith (l : List (String × String)) (k : String) : Nat :=
  (((l.map (fun p => p.1)).dedup).filter
    (fun n => l.any (fun p => p.1 = n && p.2 = k))).length

/-- Number of distinct order ids among `l` that have a line whose status is
one of the seven counted keys. -/
def ordersCounted (l : List (String × String)) : Nat :=
  (((l.map (fun p => p.1)).dedup).filter
    (fun n => l.any (fun p => p.1 = n && countedKeys.contains p.2))).length

/-- C1 witness input: a one-line order, trivially in the caller's sort
order. -/
def w1row : Row :=
  { defaultRow with
    name := "#1001", financial_status := "paid",
    zip := Cell.str "C1425", shipping_company := Cell.str "12345678",
    province := "Buenos Aires" }

/-- C2 failing input: a paid line whose id field is exactly "DNI 12345678". -/
def cRow2 : Row :=
  { defaultRow with
    name := "#2001", financial_status := "paid",
    shipping_company := Cell.str "DNI 12345678", zip := Cell.str "9000",
    shipping_method := "Standard", province := "Chubut" }

/-- C4 witness input: a paid line with non-blank notes that would otherwise be
CABA PRIORITARIO. -/
def w4row : Row :=
  { defaultRow with
    name := "#4001", financial_status := "paid",
    notes := Cell.str " revisar stock ", zip := Cell.str "C1425",
    shipping_method := "Envío Prioritario + Garantía extendida",
    shipping_company := Cell.str "12345678", province := "Buenos Aires" }

/-- C5 witness input, default method: the spec's paid line with zip "C1425". -/
def w5a : Row :=
  { defaultRow with
    name := "#5001", financial_status := "paid",
    zip := Cell.str "C1425", shipping_method := "Standard",
    shipping_company := Cell.str "12345678", province := "Buenos Aires" }

/-- C5 witness input, priority method. -/
def w5b : Row :=
  { defaultRow with
    name := "#5002", financial_status := "paid",
    zip := Cell.str "C1425",
    shipping_method := "Envío Prioritario + Garantía extendida",
    shipping_company := Cell.str "12345678", province := "Buenos Aires" }

/-- C6 counterexample, line 1: a paid CABA line of order #6001. -/
def r6a : Row :=
  { defaultRow with
    name := "#6001", financial_status := "paid",
    zip := Cell.str "C1425", shipping_company := Cell.str "123",
    province := "Buenos Aires" }

/-- C6 counterexample, line 2: an expired line of the same order #6001. -/
def r6b : Row :=
  { defaultRow with
    name := "#6001", financial_status := "expired",
    zip := Cell.str "X", shipping_company := Cell.str "123" }

/-- C6 witness input: an expired line. -/
def w6a : Row :=
  { defaultRow with
    name := "#6101", financial_status := "expired",
    notes := Cell.str "nota", zip := Cell.str "C1425",
    shipping_method := "Envío Prioritario + Garantía extendida" }

/-- C6 witness input: a refunded line. -/
def w6b : Row :=
  { defaultRow with
    name := "#6102", financial_status := "refunded" }

/-- C6 witness input: a pending line. -/
def w6c : Row :=
  { defaultRow with
    name := "#6103", financial_status := "pending" }

/-- C6 witness input: a line with an unrecognized financial status. -/
def w6d : Row :=
  { defaultRow with
    name := "#6104", financial_status := "on_hold",
    zip := Cell.str "C1425" }

/-- C7 counterexample input: a paid line whose id field contains a dot and a
space, which the engine deletes from the INPUT table. -/
def cRow7 : Row :=
  { defaultRow with
    name := "#7001", financial_status := "paid",
    shipping_company := Cell.str "12.345 678", zip := Cell.str "Z900",
    shipping_method := "Standard", province := "Buenos Aires" }

/-- C8 counterexample input: one paid priority order outside CABA; its status
PRIORITARIO is in none of the seven counted categories. -/
def cRow8 : Row :=
  { defaultRow with
    name := "#8001", financial_status := "paid",
    shipping_company := Cell.str "123", zip := Cell.str "Z900",
    shipping_method := "Envío Prioritario + Garantía extendida",
    province := "Buenos Aires" }

/-- The spec's end-to-end example, line 1: order #1001, paid, zip "C1420",
default method, empty notes. -/
def exRow1 : Row :=
  { defaultRow with
    name := "#1001", shipping_name := Cell.str "B",
    financial_status := "paid", zip := Cell.str "C1420",
    shipping_method := "Standard", shipping_company := Cell.str "12345678",
    province := "Buenos Aires" }

/-- The spec's end-to-end example, line 2: second item of the same order. -/
def exRow2 : Row :=
  { defaultRow with
    name := "#1001", shipping_name := Cell.str "A",
    financial_status := "paid", zip := Cell.str "C1420",
    shipping_method := "Standard", shipping_company := Cell.str "12345678",
    province := "Buenos Aires" }

/-- The spec's end-to-end example table. -/
def exampleT : List Row := [exRow1, exRow2]

/-- The (order id, final status) pairs of the end-to-end example. -/
def examplePairs : List (String × String) :=
  (exampleT.map (fun r => r.name)).zip ["CABA", "CABA"]

/-- C9 witness input: a small two-order table. -/
def w9t : List Row :=
  [{ defaultRow with
     name := "#9001", financial_status := "paid",
     shipping_company := Cell.str "1.23", zip := Cell.str "C1425" },
   { defaultRow with
     name := "#9002", financial_status := "pending" }]

/-- C10 witness input: a one-line paid order with a dotted id field. -/
def w10t : List Row :=
  [{ defaultRow with
     name := "#9101", financial_status := "paid",
     shipping_company := Cell.str "30.123.456", zip := Cell.str "1425",
     phone := Cell.null, shipping_name := Cell.null }]

/-- C3 counterexample frame: every required column present, one paid row whose
`'Notes'` cell is a number. -/
def cexFrame3 : RawFrame :=
  { nrows := 1,
    cols := [("Created at", [Cell.str "2024-01-01"]), ("Name", [Cell.str "#3001"]),
             ("Shipping Name", [Cell.str "A"]), ("Lineitem quantity", [Cell.num 1]),
             ("Lineitem name", [Cell.str "item"]), ("Total", [Cell.num 10]),
             ("Shipping Province Name", [Cell.str "Buenos Aires"]),
             ("Shipping Street", [Cell.str "s"]), ("Shipping Zip", [Cell.str "9000"]),
             ("Shipping Phone", [Cell.null]), ("Email", [Cell.str "e"]),
             ("Lineitem sku", [Cell.str "k"]), ("Shipping Company", [Cell.str "123"]),
             ("Financial Status", [Cell.str "paid"]), ("Shipping Method", [Cell.str "Standard"]),
             ("Notes", [Cell.num 7])] }

/-- C3 witness frame: same shape, but the notes cell is a string. -/
def goodFrame3 : RawFrame :=
  { cexFrame3 with
    cols := cexFrame3.cols.map
      (fun p => if p.1 = "Notes" then ("Notes", [Cell.str ""]) else p) }

/-- C3 witness frame for the missing-column direction: `'Shipping Zip'` is
absent. -/
def badFrame3 : RawFrame :=
  { cexFrame3 with
    cols := cexFrame3.cols.filter (fun p => p.1 ≠ "Shipping Zip") }

/-! ### Generic list, string and `mapE` lemmas -/

lemma filter_comm {α : Type} (p q : α → Bool) (l : List α) :
    (l.filter p).filter q = (l.filter q).filter p := by
  simp only [List.filter_filter]
  congr 1
  funext a
  exact Bool.and_comm _ _

lemma filter_idem {α : Type} (p : α → Bool) (l : List α) :
    (l.filter p).filter p = l.filter p := by
  simp [List.filter_filter]

lemma removeChar_comm (a b : Char) (s : String) :
    removeChar a (removeChar b s) = removeChar b (removeChar a s) :=
  congrArg String.mk (filter_comm _ _ _)

lemma removeChar_idem (a : Char) (s : String) :
    removeChar a (removeChar a s) = removeChar a s :=
  congrArg String.mk (filter_idem _ _)

lemma strippedCompany_idem (c : Cell) :
    strippedCompany (Cell.str (strippedCompany c)) = strippedCompany c := by
  show removeChar ' ' (removeChar '.' (removeChar ' ' (removeChar '.' (pyStr c))))
      = removeChar ' ' (removeChar '.' (pyStr c))
  rw [removeChar_comm '.' ' ', removeChar_idem, removeChar_idem]

lemma normalizeRow_idem (r : Row) : normalizeRow (normalizeRow r) = normalizeRow r := by
  simp [normalizeRow, strippedCompany_idem]

lemma normalizeRow_name (r : Row) : (normalizeRow r).name = r.name := rfl

lemma mapE_ok_length {α β : Type} {f : α → Except String β} :
    ∀ {l : List α} {bs : List β}, mapE f l = Except.ok bs → bs.length = l.length := by
  intro l
  induction l with
  | nil =>
      intro bs h
      simp only [mapE] at h
      cases h
      rfl
  | cons a as ih =>
      intro bs h
      cases hfa : f a with
      | error e => simp [mapE, hfa] at h
      | ok b =>
        cases hrec : mapE f as with
        | error e => simp [mapE, hfa, hrec] at h
        | ok bs0 =>
          simp only [mapE, hfa, hrec] at h
          cases h
          simp [ih hrec]

lemma mapE_ok_getD {α β : Type} {f : α → Except String β} (dα : α) (dβ : β) :
    ∀ {l : List α} {bs : List β}, mapE f l = Except.ok bs →
      ∀ i, i < l.length → f (l.getD i dα) = Except.ok (bs.getD i dβ) := by
  intro l
  induction l with
  | nil =>
      intro bs _ i hi
      exact absurd hi (by simp)
  | cons a as ih =>
      intro bs h i hi
      cases hfa : f a with
      | error e => simp [mapE, hfa] at h
      | ok b =>
        cases hrec : mapE f as with
        | error e => simp [mapE, hfa, hrec] at h
        | ok bs0 =>
          simp only [mapE, hfa, hrec] at h
          cases h
          cases i with
          | zero => simpa using hfa
          | succ j =>
            simp only [List.getD_cons_succ]
            exact ih hrec j (by simpa using hi)

lemma mapE_all_ok {α β : Type} {f : α → Except String β} :
    ∀ (l : List α), (∀ a ∈ l, ∃ b, f a = Except.ok b) →
      ∃ bs, mapE f l = Except.ok bs := by
  intro l
  induction l with
  | nil => intro _; exact ⟨[], rfl⟩
  | cons a as ih =>
      intro h
      obtain ⟨b, hb⟩ := h a (List.mem_cons_self a as)
      obtain ⟨bs, hbs⟩ := ih (fun x hx => h x (List.mem_cons_of_mem a hx))
      exact ⟨b :: bs, by simp [mapE, hb, hbs]⟩

lemma mapE_err {α β : Type} {f : α → Except String β} :
    ∀ (l : List α) (a : α), a ∈ l → (∀ b, f a ≠ Except.ok b) →
      ∃ e, mapE f l = Except.error e := by
  intro l
  induction l with
  | nil => intro a ha; exact absurd ha (by simp)
  | cons x xs ih =>
      intro a ha hbad
      cases hfx : f x with
      | error e => exact ⟨e, by simp [mapE, hfx]⟩
      | ok b =>
        rcases List.mem_cons.mp ha with rfl | hmem
        · exact absurd hfx (hbad b)
        · obtain ⟨e, he⟩ := ih a hmem hbad
          exact ⟨e, by simp [mapE, hfx, he]⟩

lemma mapE_map {α β γ : Type} (f : β → Except String γ) (g : α → β) (l : List α) :
    mapE f (l.map g) = mapE (fun a => f (g a)) l := by
  induction l with
  | nil => rfl
  | cons a as ih => simp [mapE, ih]

lemma mapE_congr {α β : Type} {f g : α → Except String β} :
    ∀ {l : List α}, (∀ a ∈ l, f a = g a) → mapE f l = mapE g l := by
  intro l
  induction l with
  | nil => intro _; rfl
  | cons a as ih =>
      intro h
      simp only [mapE, h a (List.mem_cons_self a as),
        ih (fun x hx => h x (List.mem_cons_of_mem a hx))]

lemma find_first_spec {α : Type} (p : α → Bool) (l : List α) (d : α) :
    l.find? p = none ∨
    ∃ k, k < l.length ∧ l.find? p = some (l.getD k d) ∧ p (l.getD k d) = true ∧
      ∀ m, m < l.length → m < k → p (l.getD m d) = false := by
  induction l with
  | nil => exact Or.inl rfl
  | cons x xs ih =>
      cases hx : p x with
      | true =>
          refine Or.inr ⟨0, Nat.succ_pos _, ?_, by simpa using hx, ?_⟩
          · rw [List.find?_cons_of_pos _ hx, List.getD_cons_zero]
          · intro m _ h0
            exact absurd h0 (Nat.not_lt_zero m)
      | false =>
          rcases ih with hnone | ⟨k, hk, hfind, hp, hmin⟩
          · exact Or.inl (by rw [List.find?_cons_of_neg _ (by simp [hx]), hnone])
          · refine Or.inr ⟨k + 1, Nat.succ_lt_succ hk, ?_, ?_, ?_⟩
            · rw [List.find?_cons_of_neg _ (by simp [hx]), hfind, List.getD_cons_succ]
            · rw [List.getD_cons_succ]; exact hp
            · intro m hm hmk
              cases m with
              | zero => simpa using hx
              | succ j =>
                rw [List.getD_cons_succ]
                exact hmin j (by simpa using hm) (Nat.lt_of_succ_lt_succ hmk)

/-! ### Engine characterization lemmas -/

lemma classifyRow_congr {a b : Row}
    (h1 : a.financial_status = b.financial_status)
    (h2 : a.shipping_company = b.shipping_company)
    (h3 : a.zip = b.zip)
    (h4 : a.shipping_method = b.shipping_method)
    (h5 : a.notes = b.notes)
    (h6 : a.province = b.province) :
    classifyRow a = classifyRow b := by
  unfold classifyRow pass1 pass1Elif pass2 pass3 pass4
  rw [h1, h2, h3, h4, h5, h6]

lemma classifyRow_normA (r : Row) :
    classifyRow (normalizeRowA r) = classifyRow (normalizeRow r) :=
  classifyRow_congr rfl rfl rfl rfl rfl rfl

lemma procesarArchivo_ok {t tm : List Row} {fin : List String}
    (h : procesarArchivo t = Except.ok (tm, fin)) :
    tm = t.map normalizeRow ∧
    ∃ sts, mapE classifyRow (t.map normalizeRow) = Except.ok sts ∧
      fin = (consolidateTable ((t.map normalizeRow).zip sts)).map (fun p => p.2) := by
  unfold procesarArchivo at h
  cases hm : mapE classifyRow (t.map normalizeRow) with
  | error e => rw [hm] at h; cases h
  | ok sts =>
      rw [hm] at h
      cases h
      exact ⟨rfl, sts, rfl, rfl⟩

lemma consolidateTable_length (l : List (Row × String)) :
    (consolidateTable l).length = l.length := by
  simp [consolidateTable]

/-- Per-index specification of a successful run: the final status of line `j`
is the pre-consolidation status of the first line `k` that shares its order
id. -/
lemma procesar_fin_spec {t tm : List Row} {fin : List String}
    (h : procesarArchivo t = Except.ok (tm, fin)) :
    ∃ sts, mapE classifyRow (t.map normalizeRow) = Except.ok sts ∧
      sts.length = t.length ∧ fin.length = t.length ∧
      ∀ j, j < t.length →
        ∃ k, k ≤ j ∧ k < t.length ∧
          (t.getD k defaultRow).name = (t.getD j defaultRow).name ∧
          (∀ m, m < k → (t.getD m defaultRow).name ≠ (t.getD j defaultRow).name) ∧
          fin.getD j "" = sts.getD k "" := by
  obtain ⟨htm, sts, hsts, hfin⟩ := procesarArchivo_ok h
  have hlen : sts.length = t.length := by
    have := mapE_ok_length hsts
    simpa using this
  have hzlen : ((t.map normalizeRow).zip sts).length = t.length := by
    simp [hlen]
  have hflen : fin.length = t.length := by
    rw [hfin]
    simp [consolidateTable_length, hzlen]
  refine ⟨sts, hsts, hlen, hflen, ?_⟩
  intro j hj
  have hLget : ∀ m, m < t.length →
      ((t.map normalizeRow).zip sts).getD m (defaultRow, "") =
        (normalizeRow (t.getD m defaultRow), sts.getD m "") := by
    intro m hmt
    have hms : m < sts.length := by rw [hlen]; exact hmt
    have hmL : m < ((t.map normalizeRow).zip sts).length := by rw [hzlen]; exact hmt
    rw [List.getD_eq_getElem _ _ hmL, List.getElem_zip, List.getElem_map,
      List.getD_eq_getElem t defaultRow hmt, List.getD_eq_getElem sts "" hms]
  have hjL : j < ((t.map normalizeRow).zip sts).length := by rw [hzlen]; exact hj
  rcases find_first_spec
      (fun q => q.1.name = (((t.map normalizeRow).zip sts).getD j (defaultRow, "")).1.name)
      ((t.map normalizeRow).zip sts) (defaultRow, "") with hnone |
      ⟨k, hk, hfind, hpk, hmin⟩
  · -- impossible: line j itself satisfies the predicate
    have hmem : ((t.map normalizeRow).zip sts).getD j (defaultRow, "") ∈
        (t.map normalizeRow).zip sts := by
      rw [List.getD_eq_getElem _ _ hjL]
      exact List.getElem_mem hjL
    have := List.find?_eq_none.mp hnone _ hmem
    simp at this
  · have hkt : k < t.length := by rw [hzlen] at hk; exact hk
    have hkj : k ≤ j := by
      by_contra hgt
      have hjk : j < k := Nat.lt_of_not_le hgt
      have := hmin j hjL hjk
      simp at this
    refine ⟨k, hkj, hkt, ?_, ?_, ?_⟩
    · have := hpk
      rw [hLget k hkt, hLget j hj] at this
      simpa [normalizeRow_name] using this
    · intro m hmk
      have hmt : m < t.length := Nat.lt_trans hmk hkt
      have hmL : m < ((t.map normalizeRow).zip sts).length := by rw [hzlen]; exact hmt
      have := hmin m hmL hmk
      rw [hLget m hmt, hLget j hj] at this
      simpa [normalizeRow_name] using this
    · -- evaluate fin at j through consolidateTable
      have hjc : j < (consolidateTable ((t.map normalizeRow).zip sts)).length := by
        rw [consolidateTable_length]; exact hjL
      have hjm : j <
          ((consolidateTable ((t.map normalizeRow).zip sts)).map (fun p => p.2)).length := by
        simpa using hjc
      rw [hfin, List.getD_eq_getElem _ _ hjm, List.getElem_map]
      simp only [consolidateTable, List.getElem_map]
      rw [← List.getD_eq_getElem ((t.map normalizeRow).zip sts) (defaultRow, "") hjL]
      rw [hfind]
      simp only [Option.getD_some]
      rw [hLget k hkt]

/-- The consolidation step on bare (order id, status) pairs; `consolidateTable`
only reads the name of each row, so its status output factors through this. -/
def consolidNS (l : List (String × String)) : List String :=
  l.map (fun p => ((l.find? (fun q => q.1 = p.1)).getD p).2)

lemma find?_ns (l : List (Row × String)) (n : String) :
    (l.map (fun p => (p.1.name, p.2))).find? (fun q => q.1 = n) =
      Option.map (fun p => (p.1.name, p.2)) (l.find? (fun q => q.1.name = n)) := by
  induction l with
  | nil => rfl
  | cons x xs ih =>
      by_cases hx : x.1.name = n
      · simp [List.find?_cons, hx]
      · simp [List.find?_cons, hx, ih]

lemma consolidateTable_snd (l : List (Row × String)) :
    (consolidateTable l).map (fun p => p.2) =
      consolidNS (l.map (fun p => (p.1.name, p.2))) := by
  unfold consolidateTable consolidNS
  rw [List.map_map, List.map_map]
  refine List.map_congr_left ?_
  intro p _
  simp only [Function.comp_apply]
  rw [find?_ns]
  cases hf : List.find? (fun q => q.1.name = p.1.name) l with
  | none => simp
  | some x => simp

lemma zip_map_ns (f : Row → Row) (hf : ∀ r, (f r).name = r.name)
    (t : List Row) (sts : List String) :
    ((t.map f).zip sts).map (fun p => (p.1.name, p.2)) =
      (t.map (fun r => r.name)).zip sts := by
  induction t generalizing sts with
  | nil => rfl
  | cons r rs ih =>
      cases sts with
      | nil => rfl
      | cons s ss => simp [hf, ih]

lemma classifyRow_nAn (r : Row) :
    classifyRow (normalizeRowA (normalizeRow r)) = classifyRow (normalizeRow r) :=
  classifyRow_congr rfl
    (by simp [normalizeRowA, normalizeRow, strippedCompany_idem]) rfl rfl rfl rfl

/-! ### Claim theorems -/

/-- C1: for every input table (in the caller's sort order, `order_id`
ascending then `shipping_name` descending) on which the engine succeeds, after
consolidation every line of an order carries an identical status, equal to the
pre-consolidation (classification) status of the first line of that order in
the table's row order at the moment of grouping. -/
theorem c1_consolidation_first_line_status (t tm : List Row) (fin : List String)
    (hok : procesarArchivo t = Except.ok (tm, fin))
    (_hsorted : t.Pairwise rowOrder) :
    ∃ sts, mapE classifyRow (t.map normalizeRow) = Except.ok sts ∧
      (∀ i j, i < t.length → j < t.length →
        (t.getD i defaultRow).name = (t.getD j defaultRow).name →
        fin.getD i "" = fin.getD j "") ∧
      (∀ j, j < t.length → ∃ k, k ≤ j ∧ k < t.length ∧
        (t.getD k defaultRow).name = (t.getD j defaultRow).name ∧
        (∀ m, m < k → (t.getD m defaultRow).name ≠ (t.getD j defaultRow).name) ∧
        fin.getD j "" = sts.getD k "") := by
  obtain ⟨sts, hsts, _, _, hspec⟩ := procesar_fin_spec hok
  refine ⟨sts, hsts, ?_, hspec⟩
  intro i j hi hj hname
  obtain ⟨ki, hki_le, hki_lt, hki_name, hki_min, hki_fin⟩ := hspec i hi
  obtain ⟨kj, hkj_le, hkj_lt, hkj_name, hkj_min, hkj_fin⟩ := hspec j hj
  have hkk : ki = kj := by
    rcases Nat.lt_trichotomy ki kj with hlt | heq | hgt
    · exact absurd (hki_name.trans hname) (hkj_min ki hlt)
    · exact heq
    · exact absurd (hkj_name.trans hname.symm) (hki_min kj hgt)
  rw [hki_fin, hkj_fin, hkk]

/-- C1 witness: the theorem applied to the concrete one-line table
`[w1row]`. -/
theorem c1_witness :
    ∃ sts, mapE classifyRow ([w1row].map normalizeRow) = Except.ok sts ∧
      (∀ i j, i < [w1row].length → j < [w1row].length →
        ([w1row].getD i defaultRow).name = ([w1row].getD j defaultRow).name →
        ["CABA"].getD i "" = ["CABA"].getD j "") ∧
      (∀ j, j < [w1row].length → ∃ k, k ≤ j ∧ k < [w1row].length ∧
        ([w1row].getD k defaultRow).name = ([w1row].getD j defaultRow).name ∧
        (∀ m, m < k → ([w1row].getD m defaultRow).name ≠ ([w1row].getD j defaultRow).name) ∧
        ["CABA"].getD j "" = sts.getD k "") :=
  c1_consolidation_first_line_status [w1row] [normalizeRow w1row] ["CABA"]
    (by decide) (List.pairwise_singleton _ _)

/-- C9: re-running the engine on the already-processed (already normalized
in place) input table is idempotent: the second run returns the same table and
the same per-line final statuses. -/
theorem c9_reclassification_idempotent (t tm : List Row) (fin : List String)
    (h : procesarArchivo t = Except.ok (tm, fin)) :
    procesarArchivo tm = Except.ok (tm, fin) := by
  obtain ⟨htm, sts, hsts, hfin⟩ := procesarArchivo_ok h
  subst htm
  have hmapnorm : (t.map normalizeRow).map normalizeRow = t.map normalizeRow := by
    rw [List.map_map]
    exact List.map_congr_left (fun a _ => normalizeRow_idem a)
  unfold procesarArchivo
  rw [hmapnorm, hsts, hfin]

/-- C9 witness: the theorem applied to the concrete two-order table `w9t`. -/
theorem c9_witness :
    procesarArchivo (w9t.map normalizeRow) =
      Except.ok (w9t.map normalizeRow, ["CABA", "FALTA PAGAR"]) :=
  c9_reclassification_idempotent w9t (w9t.map normalizeRow) ["CABA", "FALTA PAGAR"]
    (by decide)

/-- C10: the carrier (Andreani) projection assigns the same per-line Status
values as the generic (Argentina) projection: on the same source table, and
also when the generic processor has already run and normalized the shared
table's id field in place, the Andreani run succeeds and returns exactly the
generic run's final statuses. -/
theorem c10_andreani_status_equal (t tm : List Row) (fin : List String)
    (h : procesarArchivo t = Except.ok (tm, fin)) :
    (∃ ta, procesarArchivoAndreani t = Except.ok (ta, fin)) ∧
    (∃ ta, procesarArchivoAndreani tm = Except.ok (ta, fin)) := by
  obtain ⟨htm, sts, hsts, hfin⟩ := procesarArchivo_ok h
  subst htm
  have hfin2 : fin = consolidNS ((t.map (fun r => r.name)).zip sts) := by
    rw [hfin, consolidateTable_snd, zip_map_ns normalizeRow normalizeRow_name]
  constructor
  · -- Andreani computed independently from the same source table
    have hstsA : mapE classifyRow (t.map normalizeRowA) = Except.ok sts := by
      rw [mapE_map]
      rw [mapE_map] at hsts
      rw [mapE_congr (fun a _ => classifyRow_normA a)]
      exact hsts
    have hrun : procesarArchivoAndreani t = Except.ok (t.map normalizeRowA,
        (consolidateTable ((t.map normalizeRowA).zip sts)).map (fun p => p.2)) := by
      unfold procesarArchivoAndreani
      rw [hstsA]
    refine ⟨t.map normalizeRowA, ?_⟩
    rw [hrun, consolidateTable_snd, zip_map_ns normalizeRowA (fun r => rfl), ← hfin2]
  · -- Andreani run after the generic processor mutated the table
    have hstsA : mapE classifyRow ((t.map normalizeRow).map normalizeRowA) =
        Except.ok sts := by
      rw [mapE_map, mapE_map]
      rw [mapE_map] at hsts
      rw [mapE_congr (fun a _ => classifyRow_nAn a)]
      exact hsts
    have hrun : procesarArchivoAndreani (t.map normalizeRow) =
        Except.ok ((t.map normalizeRow).map normalizeRowA,
          (consolidateTable (((t.map normalizeRow).map normalizeRowA).zip sts)).map
            (fun p => p.2)) := by
      unfold procesarArchivoAndreani
      rw [hstsA]
    refine ⟨(t.map normalizeRow).map normalizeRowA, ?_⟩
    have hnames : (t.map normalizeRow).map (fun r => r.name) =
        t.map (fun r => r.name) := by
      rw [List.map_map]
      exact List.map_congr_left (fun a _ => rfl)
    rw [hrun, consolidateTable_snd, zip_map_ns normalizeRowA (fun r => rfl),
      hnames, ← hfin2]

/-- C10 witness: the theorem applied to the concrete one-line table `w10t`. -/
theorem c10_witness :
    (∃ ta, procesarArchivoAndreani w10t = Except.ok (ta, ["CABA"])) ∧
    (∃ ta, procesarArchivoAndreani (w10t.map normalizeRow) =
      Except.ok (ta, ["CABA"])) :=
  c10_andreani_status_equal w10t (w10t.map normalizeRow) ["CABA"] (by decide)

/-- C2 (code-bug evaluation): a paid line whose id field is exactly
"DNI 12345678" IS classified REVISAR DNI by the engine, because lines 69-70
delete every space from the column before the `startswith("DNI ")` test of
line 82 runs, so the documented valid-DNI branch can never fire. -/
theorem c2_dni_line_gets_revisar_dni :
    cRow2.financial_status = "paid" ∧
    cRow2.shipping_company = Cell.str "DNI 12345678" ∧
    procesarArchivo [cRow2] = Except.ok ([normalizeRow cRow2], ["REVISAR DNI"]) :=
  ⟨rfl, rfl, by decide⟩

/-- C4: a paid line whose notes field is a non-null string that is non-blank
after stripping ends the four classification passes (before consolidation)
with status REVISAR NOTAS EN SHOPIFY, whatever the earlier passes assigned. -/
theorem c4_notes_supersede_all (r : Row) (s : String)
    (hp : r.financial_status = "paid")
    (hn : r.notes = Cell.str s)
    (hb : pyStrip s ≠ "") :
    classifyRow (normalizeRow r) = Except.ok "REVISAR NOTAS EN SHOPIFY" := by
  simp [classifyRow, pass4, normalizeRow, hp, hn, hb, pure, Except.pure]

/-- C4 witness: the theorem applied to the concrete paid line `w4row`, whose
notes are " revisar stock " and which would otherwise be CABA PRIORITARIO. -/
theorem c4_witness :
    classifyRow (normalizeRow w4row) = Except.ok "REVISAR NOTAS EN SHOPIFY" :=
  c4_notes_supersede_all w4row " revisar stock " rfl rfl (by decide)

/-- C5: a paid line with blank notes, a province other than Tierra del Fuego
and a CABA postal-code prefix is left CABA by the classification passes when
its shipping method is not the priority method, and CABA PRIORITARIO when it
is. -/
theorem c5_caba_and_caba_prioritario (r : Row)
    (hp : r.financial_status = "paid")
    (hnb : blankNotes r.notes)
    (hprov : r.province ≠ "Tierra del Fuego")
    (hzip : zipCABA (pyStr r.zip) = true) :
    (r.shipping_method ≠ prioMethod →
      classifyRow (normalizeRow r) = Except.ok "CABA") ∧
    (r.shipping_method = prioMethod →
      classifyRow (normalizeRow r) = Except.ok "CABA PRIORITARIO") := by
  constructor
  · intro hm
    rcases hnb with h0 | ⟨s, hs, hse⟩
    · simp [classifyRow, pass2, pass3, pass4, normalizeRow, hp, hzip, hm, hprov, h0, pure, Except.pure]
    · simp [classifyRow, pass2, pass3, pass4, normalizeRow, hp, hzip, hm, hprov,
        hs, hse, pure, Except.pure]
  · intro hm
    rcases hnb with h0 | ⟨s, hs, hse⟩
    · simp [classifyRow, pass2, pass3, pass4, normalizeRow, hp, hzip, hm, hprov, h0, pure, Except.pure]
    · simp [classifyRow, pass2, pass3, pass4, normalizeRow, hp, hzip, hm, hprov,
        hs, hse, pure, Except.pure]

/-- C5 witness: the theorem applied to the spec's zip "C1425" line, once with
the default method and once with the priority method. -/
theorem c5_witness :
    classifyRow (normalizeRow w5a) = Except.ok "CABA" ∧
    classifyRow (normalizeRow w5b) = Except.ok "CABA PRIORITARIO" :=
  ⟨(c5_caba_and_caba_prioritario w5a rfl (Or.inl rfl) (by decide) (by decide)).1
      (by decide),
   (c5_caba_and_caba_prioritario w5b rfl (Or.inl rfl) (by decide) (by decide)).2
      rfl⟩

/-- C6 counterexample: in the two-line order `[r6a, r6b]` the second line has
financial status "expired", yet its FINAL status after consolidation is
"CABA" (the first line's status), not the pass-1 mapping "VENCIDO"; so the
claim is false of post-consolidation statuses. -/
theorem c6_counterexample :
    r6b.financial_status = "expired" ∧
    procesarArchivo [r6a, r6b] =
      Except.ok ([normalizeRow r6a, normalizeRow r6b], ["CABA", "CABA"]) :=
  ⟨rfl, by decide⟩

/-- C6 amended: BEFORE consolidation (after the four classification passes) an
expired/refunded/pending line carries exactly the pass-1 mapping, unaffected
by notes, zip or method, and a line with any other non-paid financial status
carries the empty status; consolidation may later overwrite a line's status
with its order's first-line status. -/
theorem c6_fixed_statuses_before_consolidation (r : Row) :
    (r.financial_status = "expired" →
      classifyRow (normalizeRow r) = Except.ok "VENCIDO") ∧
    (r.financial_status = "refunded" →
      classifyRow (normalizeRow r) = Except.ok "REEMBOLSADO") ∧
    (r.financial_status = "pending" →
      classifyRow (normalizeRow r) = Except.ok "FALTA PAGAR") ∧
    (r.financial_status ≠ "paid" → r.financial_status ≠ "expired" →
      r.financial_status ≠ "refunded" → r.financial_status ≠ "pending" →
      classifyRow (normalizeRow r) = Except.ok "") := by
  refine ⟨?_, ?_, ?_, ?_⟩
  · intro h
    simp [classifyRow, pass1, pass1Elif, pass2, pass3, pass4, normalizeRow, h, pure, Except.pure]
  · intro h
    simp [classifyRow, pass1, pass1Elif, pass2, pass3, pass4, normalizeRow, h, pure, Except.pure]
  · intro h
    simp [classifyRow, pass1, pass1Elif, pass2, pass3, pass4, normalizeRow, h, pure, Except.pure]
  · intro h1 h2 h3 h4
    simp [classifyRow, pass1, pass1Elif, pass2, pass3, pass4, normalizeRow,
      h1, h2, h3, h4, pure, Except.pure]

/-- C6 witness: the theorem applied to four concrete lines, one per financial
status (the expired one also has notes, a CABA zip and the priority
method). -/
theorem c6_witness :
    classifyRow (normalizeRow w6a) = Except.ok "VENCIDO" ∧
    classifyRow (normalizeRow w6b) = Except.ok "REEMBOLSADO" ∧
    classifyRow (normalizeRow w6c) = Except.ok "FALTA PAGAR" ∧
    classifyRow (normalizeRow w6d) = Except.ok "" :=
  ⟨(c6_fixed_statuses_before_consolidation w6a).1 rfl,
   (c6_fixed_statuses_before_consolidation w6b).2.1 rfl,
   (c6_fixed_statuses_before_consolidation w6c).2.2.1 rfl,
   (c6_fixed_statuses_before_consolidation w6d).2.2.2 (by decide) (by decide)
     (by decide) (by decide)⟩

/-- C7 counterexample: the engine is NOT side-effect-free on its input: it
normalizes the `'Shipping Company'` column of the INPUT table in place
(lines 69-70), so the table it hands back differs from the input in that
field. -/
theorem c7_counterexample :
    procesarArchivo [cRow7] = Except.ok ([normalizeRow cRow7], [""]) ∧
    (normalizeRow cRow7).shipping_company ≠ cRow7.shipping_company :=
  ⟨by decide, by decide⟩

/-- C7 amended: the engine's only effect on the input table is the in-place
normalization of the id field: a successful run returns the input with every
row's `shipping_company` stripped, all fifteen other fields of every line
unchanged; and consolidation changes nothing but the status component. -/
theorem c7_frame_only_company_and_status (t tm : List Row) (fin : List String)
    (hok : procesarArchivo t = Except.ok (tm, fin))
    (r : Row) (l : List (Row × String)) :
    tm = t.map normalizeRow ∧
    ((normalizeRow r).name = r.name ∧
      (normalizeRow r).shipping_name = r.shipping_name ∧
      (normalizeRow r).created_at = r.created_at ∧
      (normalizeRow r).quantity = r.quantity ∧
      (normalizeRow r).item_name = r.item_name ∧
      (normalizeRow r).total = r.total ∧
      (normalizeRow r).province = r.province ∧
      (normalizeRow r).street = r.street ∧
      (normalizeRow r).zip = r.zip ∧
      (normalizeRow r).phone = r.phone ∧
      (normalizeRow r).email = r.email ∧
      (normalizeRow r).sku = r.sku ∧
      (normalizeRow r).financial_status = r.financial_status ∧
      (normalizeRow r).shipping_method = r.shipping_method ∧
      (normalizeRow r).notes = r.notes) ∧
    (consolidateTable l).map (fun p => p.1) = l.map (fun p => p.1) := by
  obtain ⟨htm, _, _, _⟩ := procesarArchivo_ok hok
  refine ⟨htm,
    ⟨rfl, rfl, rfl, rfl, rfl, rfl, rfl, rfl, rfl, rfl, rfl, rfl, rfl, rfl, rfl⟩, ?_⟩
  unfold consolidateTable
  rw [List.map_map]
  exact List.map_congr_left (fun a _ => rfl)

/-- C7 witness: the amended theorem applied to the one-line table `[cRow7]`
and a one-pair consolidation input. -/
theorem c7_witness :
    [normalizeRow cRow7] = [cRow7].map normalizeRow ∧
    ((normalizeRow cRow7).name = cRow7.name ∧
      (normalizeRow cRow7).shipping_name = cRow7.shipping_name ∧
      (normalizeRow cRow7).created_at = cRow7.created_at ∧
      (normalizeRow cRow7).quantity = cRow7.quantity ∧
      (normalizeRow cRow7).item_name = cRow7.item_name ∧
      (normalizeRow cRow7).total = cRow7.total ∧
      (normalizeRow cRow7).province = cRow7.province ∧
      (normalizeRow cRow7).street = cRow7.street ∧
      (normalizeRow cRow7).zip = cRow7.zip ∧
      (normalizeRow cRow7).phone = cRow7.phone ∧
      (normalizeRow cRow7).email = cRow7.email ∧
      (normalizeRow cRow7).sku = cRow7.sku ∧
      (normalizeRow cRow7).financial_status = cRow7.financial_status ∧
      (normalizeRow cRow7).shipping_method = cRow7.shipping_method ∧
      (normalizeRow cRow7).notes = cRow7.notes) ∧
    (consolidateTable [(normalizeRow cRow7, "")]).map (fun p => p.1) =
      [(normalizeRow cRow7, "")].map (fun p => p.1) :=
  c7_frame_only_company_and_status [cRow7] [normalizeRow cRow7] [""]
    (by decide) cRow7 [(normalizeRow cRow7, "")]

/-! ### Statistics lemmas -/

lemma countDistinct_eq_ordersWith (l : List (String × String)) (k : String) :
    countDistinct l k = ordersWith l k := by
  unfold countDistinct ordersWith
  have h1 : (((l.filter (fun p => p.2 = k)).map (fun p => p.1)).dedup).Nodup :=
    List.nodup_dedup _
  have h2 : (((l.map (fun p => p.1)).dedup).filter
      (fun n => l.any (fun p => p.1 = n && p.2 = k))).Nodup :=
    (List.nodup_dedup _).filter _
  have hlen1 : (((l.filter (fun p => p.2 = k)).map (fun p => p.1)).dedup).length =
      (((l.filter (fun p => p.2 = k)).map (fun p => p.1)).dedup).toFinset.card := by
    rw [List.card_toFinset, h1.dedup]
  have hlen2 : ((((l.map (fun p => p.1)).dedup).filter
      (fun n => l.any (fun p => p.1 = n && p.2 = k)))).length =
      ((((l.map (fun p => p.1)).dedup).filter
      (fun n => l.any (fun p => p.1 = n && p.2 = k)))).toFinset.card := by
    rw [List.card_toFinset, h2.dedup]
  rw [hlen1, hlen2]
  congr 1
  ext n
  simp only [List.mem_toFinset, List.mem_dedup, List.mem_filter, List.mem_map,
    List.any_eq_true, Bool.and_eq_true, decide_eq_true_eq]
  constructor
  · rintro ⟨p, ⟨hpl, hpk⟩, hpn⟩
    exact ⟨⟨p, hpl, hpn⟩, p, hpl, hpn, hpk⟩
  · rintro ⟨_, p, hpl, hpn, hpk⟩
    exact ⟨p, ⟨hpl, hpk⟩, hpn⟩

lemma length_filter_or_disjoint {α : Type} (p q : α → Bool) :
    ∀ (l : List α), (∀ a ∈ l, ¬(p a = true ∧ q a = true)) →
      (l.filter (fun a => p a || q a)).length =
        (l.filter p).length + (l.filter q).length := by
  intro l
  induction l with
  | nil => intro _; rfl
  | cons x xs ih =>
      intro h
      have ih2 := ih (fun a ha => h a (List.mem_cons_of_mem _ ha))
      have hx := h x (List.mem_cons_self _ _)
      by_cases hp : p x = true
      · have hq : q x = false := by
          cases hqv : q x
          · rfl
          · exact absurd ⟨hp, hqv⟩ hx
        simp [List.filter_cons, hp, hq, ih2]
        omega
      · have hp2 : p x = false := by
          cases hpv : p x
          · rfl
          · exact absurd hpv hp
        cases hqv : q x
        · simp [List.filter_cons, hp2, hqv, ih2]
        · simp [List.filter_cons, hp2, hqv, ih2]
          omega

lemma filter_keys_sum (hasK : String → String → Bool) :
    ∀ (ks : List String), ks.Nodup → ∀ (L : List String),
      (∀ n, ∀ k1 ∈ ks, ∀ k2 ∈ ks, hasK n k1 = true → hasK n k2 = true → k1 = k2) →
      (L.filter (fun n => ks.any (fun k => hasK n k))).length =
        (ks.map (fun k => (L.filter (fun n => hasK n k)).length)).sum := by
  intro ks
  induction ks with
  | nil =>
      intro _ L _
      simp
  | cons k ks ih =>
      intro hnd L hex
      have hdisj : ∀ n ∈ L,
          ¬((hasK n k) = true ∧ (ks.any (fun j => hasK n j)) = true) := by
        rintro n _ ⟨hk1, hk2⟩
        obtain ⟨j, hj, hjk⟩ := List.any_eq_true.mp hk2
        have hkj : k = j :=
          hex n k (List.mem_cons_self _ _) j (List.mem_cons_of_mem _ hj) hk1 hjk
        exact (List.nodup_cons.mp hnd).1 (hkj ▸ hj)
      have step1 : (L.filter (fun n => (k :: ks).any (fun j => hasK n j))).length =
          (L.filter (fun n => hasK n k || ks.any (fun j => hasK n j))).length :=
        congrArg List.length (List.filter_congr (fun n _ => by rw [List.any_cons]))
      rw [step1, length_filter_or_disjoint _ _ L hdisj,
        ih (List.nodup_cons.mp hnd).2 L
          (fun n k1 hk1 k2 hk2 => hex n k1 (List.mem_cons_of_mem _ hk1) k2
            (List.mem_cons_of_mem _ hk2)),
        List.map_cons, List.sum_cons]

lemma any_contains_keys (xs : List (String × String)) (n : String) :
    xs.any (fun p => p.1 = n && countedKeys.contains p.2) =
      countedKeys.any (fun k => xs.any (fun p => p.1 = n && p.2 = k)) := by
  rw [Bool.eq_iff_iff]
  simp only [List.any_eq_true, Bool.and_eq_true, decide_eq_true_eq,
    List.contains_eq_any_beq, beq_iff_eq]
  constructor
  · rintro ⟨p, hp, h1, h2⟩
    obtain ⟨k, hk, hkeq⟩ := h2
    exact ⟨k, hk, p, hp, h1, hkeq⟩
  · rintro ⟨k, hk, p, hp, h1, h2⟩
    exact ⟨p, hp, h1, ⟨k, hk, by rw [h2]⟩⟩

/-- After consolidation the status is a function of the order id: any two
(name, final status) pairs of a successful run that share the name share the
status. -/
lemma procesar_pairs_const {t tm : List Row} {fin : List String}
    (hok : procesarArchivo t = Except.ok (tm, fin)) :
    ∀ p ∈ (t.map (fun r => r.name)).zip fin,
      ∀ q ∈ (t.map (fun r => r.name)).zip fin, p.1 = q.1 → p.2 = q.2 := by
  obtain ⟨sts, hsts, hslen, hflen, hspec⟩ := procesar_fin_spec hok
  have hconst : ∀ i j, i < t.length → j < t.length →
      (t.getD i defaultRow).name = (t.getD j defaultRow).name →
      fin.getD i "" = fin.getD j "" := by
    intro i j hi hj hname
    obtain ⟨ki, _, hki_lt, hki_name, hki_min, hki_fin⟩ := hspec i hi
    obtain ⟨kj, _, hkj_lt, hkj_name, hkj_min, hkj_fin⟩ := hspec j hj
    have hkk : ki = kj := by
      rcases Nat.lt_trichotomy ki kj with hlt | heq | hgt
      · exact absurd (hki_name.trans hname) (hkj_min ki hlt)
      · exact heq
      · exact absurd (hkj_name.trans hname.symm) (hki_min kj hgt)
    rw [hki_fin, hkj_fin, hkk]
  have hzlen : ((t.map (fun r => r.name)).zip fin).length = t.length := by
    simp [hflen]
  have hpget : ∀ m : Fin (((t.map (fun r => r.name)).zip fin).length),
      ((t.map (fun r => r.name)).zip fin).get m =
        ((t.getD m.1 defaultRow).name, fin.getD m.1 "") := by
    intro m
    have hmt : m.1 < t.length := by rw [← hzlen]; exact m.2
    have hmf : m.1 < fin.length := by rw [hflen]; exact hmt
    rw [List.get_eq_getElem, List.getElem_zip, List.getElem_map,
      List.getD_eq_getElem t defaultRow hmt, List.getD_eq_getElem fin "" hmf]
  intro p hp q hq hpq
  obtain ⟨ip, hip⟩ := List.mem_iff_get.mp hp
  obtain ⟨iq, hiq⟩ := List.mem_iff_get.mp hq
  have h1 : p = ((t.getD ip.1 defaultRow).name, fin.getD ip.1 "") := by
    rw [← hip, hpget ip]
  have h2 : q = ((t.getD iq.1 defaultRow).name, fin.getD iq.1 "") := by
    rw [← hiq, hpget iq]
  have hit : ip.1 < t.length := by rw [← hzlen]; exact ip.2
  have hjt : iq.1 < t.length := by rw [← hzlen]; exact iq.2
  rw [h1, h2] at hpq ⊢
  exact hconst ip.1 iq.1 hit hjt hpq

/-- C8 counterexample: a batch of one paid priority order outside CABA ends
with status PRIORITARIO; the seven counted categories are all 0, so the
display total is 0, while the batch has 1 distinct order — the total does NOT
equal the number of distinct orders. -/
theorem c8_counterexample :
    procesarArchivo [cRow8] =
      Except.ok ([normalizeRow cRow8], ["PRIORITARIO"]) ∧
    statsTotal (computeStats (([cRow8].map (fun r => r.name)).zip
      ["PRIORITARIO"])) = 0 ∧
    (([cRow8].map (fun r => r.name)).dedup).length = 1 :=
  ⟨by decide, by decide, by decide⟩

/-- C8 amended: on the consolidated output, each of the seven counted keys
reports the number of distinct order ids having (equivalently, by
consolidation: consisting of) lines with that status, and the displayed total
is the number of distinct order ids whose status is among the seven counted
keys — i.e. the SUM of the seven counts, not the number of distinct orders in
the batch (orders left PRIORITARIO, CABA PRIORITARIO or TIERRA DEL FUEGO are
counted nowhere). -/
theorem c8_category_counts (t tm : List Row) (fin : List String)
    (hok : procesarArchivo t = Except.ok (tm, fin)) :
    (computeStats ((t.map (fun r => r.name)).zip fin)).caba =
      ordersWith ((t.map (fun r => r.name)).zip fin) "CABA" ∧
    (computeStats ((t.map (fun r => r.name)).zip fin)).falta_pagar =
      ordersWith ((t.map (fun r => r.name)).zip fin) "FALTA PAGAR" ∧
    (computeStats ((t.map (fun r => r.name)).zip fin)).vencido =
      ordersWith ((t.map (fun r => r.name)).zip fin) "VENCIDO" ∧
    (computeStats ((t.map (fun r => r.name)).zip fin)).reembolsado =
      ordersWith ((t.map (fun r => r.name)).zip fin) "REEMBOLSADO" ∧
    (computeStats ((t.map (fun r => r.name)).zip fin)).notas =
      ordersWith ((t.map (fun r => r.name)).zip fin) "REVISAR NOTAS EN SHOPIFY" ∧
    (computeStats ((t.map (fun r => r.name)).zip fin)).revisar_dni =
      ordersWith ((t.map (fun r => r.name)).zip fin) "REVISAR DNI" ∧
    (computeStats ((t.map (fun r => r.name)).zip fin)).sin_clasificar =
      ordersWith ((t.map (fun r => r.name)).zip fin) "" ∧
    statsTotal (computeStats ((t.map (fun r => r.name)).zip fin)) =
      ordersCounted ((t.map (fun r => r.name)).zip fin) := by
  have hconst := procesar_pairs_const hok
  refine ⟨countDistinct_eq_ordersWith _ _, countDistinct_eq_ordersWith _ _,
    countDistinct_eq_ordersWith _ _, countDistinct_eq_ordersWith _ _,
    countDistinct_eq_ordersWith _ _, countDistinct_eq_ordersWith _ _,
    countDistinct_eq_ordersWith _ _, ?_⟩
  have hex : ∀ n, ∀ k1 ∈ countedKeys, ∀ k2 ∈ countedKeys,
      (((t.map (fun r => r.name)).zip fin).any
        (fun p => p.1 = n && p.2 = k1)) = true →
      (((t.map (fun r => r.name)).zip fin).any
        (fun p => p.1 = n && p.2 = k2)) = true → k1 = k2 := by
    intro n k1 _ k2 _ h1 h2
    obtain ⟨p, hp, hp2⟩ := List.any_eq_true.mp h1
    obtain ⟨q, hq, hq2⟩ := List.any_eq_true.mp h2
    simp only [Bool.and_eq_true, decide_eq_true_eq] at hp2 hq2
    have hpq := hconst p hp q hq (hp2.1.trans hq2.1.symm)
    rw [← hp2.2, ← hq2.2, hpq]
  have hnd : countedKeys.Nodup := by decide
  have hswap : ((((t.map (fun r => r.name)).zip fin).map (fun p => p.1)).dedup.filter
      (fun n => ((t.map (fun r => r.name)).zip fin).any
        (fun p => p.1 = n && countedKeys.contains p.2))) =
      ((((t.map (fun r => r.name)).zip fin).map (fun p => p.1)).dedup.filter
      (fun n => countedKeys.any (fun k => ((t.map (fun r => r.name)).zip fin).any
        (fun p => p.1 = n && p.2 = k)))) :=
    List.filter_congr (fun n _ => any_contains_keys _ n)
  unfold ordersCounted
  rw [hswap, filter_keys_sum
    (fun n k => ((t.map (fun r => r.name)).zip fin).any (fun p => p.1 = n && p.2 = k))
    countedKeys hnd _ hex]
  unfold statsTotal computeStats
  rw [countDistinct_eq_ordersWith _ "CABA", countDistinct_eq_ordersWith _ "FALTA PAGAR",
    countDistinct_eq_ordersWith _ "VENCIDO", countDistinct_eq_ordersWith _ "REEMBOLSADO",
    countDistinct_eq_ordersWith _ "REVISAR NOTAS EN SHOPIFY",
    countDistinct_eq_ordersWith _ "REVISAR DNI", countDistinct_eq_ordersWith _ ""]
  unfold countedKeys ordersWith
  simp only [List.map_cons, List.map_nil, List.sum_cons, List.sum_nil]
  omega

/-- C8 witness: the spec's end-to-end example (two lines of order #1001, paid,
zip "C1420", default method, empty notes) evaluated concretely — both lines end
CABA, the CABA count is 1 and the total is 1 — together with the amended
theorem's total equation applied at that input. -/
theorem c8_witness :
    procesarArchivo exampleT =
      Except.ok (exampleT.map normalizeRow, ["CABA", "CABA"]) ∧
    (computeStats examplePairs).caba = 1 ∧
    statsTotal (computeStats examplePairs) = 1 ∧
    statsTotal (computeStats examplePairs) = ordersCounted examplePairs := by
  refine ⟨by decide, by decide, by decide, ?_⟩
  have h := c8_category_counts exampleT (exampleT.map normalizeRow)
    ["CABA", "CABA"] (by decide)
  exact h.2.2.2.2.2.2.2

/-! ### Frame-level lemmas (for the error-handling claim) -/

lemma requireCol_ok {f : RawFrame} {c : String} (h : hasCol f c = true) :
    requireCol f c = Except.ok () := by
  unfold requireCol
  rw [h]
  rfl

lemma requireCol_err {f : RawFrame} {c : String} (h : hasCol f c = false) :
    requireCol f c = Except.error ("KeyError: " ++ c) := by
  unfold requireCol
  rw [h]
  rfl

lemma cellAt_ok {f : RawFrame} {c : String} (h : hasCol f c = true) (i : Nat) :
    cellAt f c i = Except.ok ((colCells f c).getD i Cell.null) := by
  unfold cellAt
  rw [requireCol_ok h]

lemma setCol_keeps_name (c : String) (cells : List Cell)
    (p : String × List Cell) :
    ((if p.1 = c then (c, cells) else p) : String × List Cell).1 = p.1 := by
  by_cases h : p.1 = c
  · simp [h]
  · simp [h]

lemma hasCol_setCol (f : RawFrame) (c d : String) (cells : List Cell) :
    hasCol (setCol f c cells) d = hasCol f d := by
  unfold hasCol setCol
  simp only
  rw [Bool.eq_iff_iff]
  simp only [List.any_eq_true, List.mem_map, decide_eq_true_eq]
  constructor
  · rintro ⟨_, ⟨p, hp, rfl⟩, hname⟩
    rw [setCol_keeps_name] at hname
    exact ⟨p, hp, hname⟩
  · rintro ⟨p, hp, hname⟩
    refine ⟨if p.1 = c then (c, cells) else p, ⟨p, hp, rfl⟩, ?_⟩
    rw [setCol_keeps_name]
    exact hname

lemma find?_setCol_list (cols : List (String × List Cell)) (c d : String)
    (cells : List Cell) (h : d ≠ c) :
    (cols.map (fun p => if p.1 = c then (c, cells) else p)).find?
        (fun p => p.1 = d) =
      cols.find? (fun p => p.1 = d) := by
  induction cols with
  | nil => rfl
  | cons x xs ih =>
      by_cases hx : x.1 = c
      · have hxd : ¬(x.1 = d) := by rw [hx]; exact fun hcd => h hcd.symm
        rw [List.map_cons]
        rw [List.find?_cons_of_neg _ (by rw [if_pos hx]; simp; exact fun hcd => h hcd.symm),
          List.find?_cons_of_neg _ (by simp [hxd]), ih]
      · by_cases hxd : x.1 = d
        · rw [List.map_cons,
            List.find?_cons_of_pos _ (by rw [if_neg hx]; simp [hxd]),
            List.find?_cons_of_pos _ (by simp [hxd])]
          rw [if_neg hx]
        · rw [List.map_cons,
            List.find?_cons_of_neg _ (by rw [if_neg hx]; simp [hxd]),
            List.find?_cons_of_neg _ (by simp [hxd]), ih]

lemma colCells_setCol_ne (f : RawFrame) (c d : String) (cells : List Cell)
    (h : d ≠ c) :
    colCells (setCol f c cells) d = colCells f d := by
  unfold colCells setCol
  simp only
  rw [find?_setCol_list f.cols c d cells h]

lemma loopBody1_ok (f : RawFrame) (i : Nat)
    (h1 : hasCol f "Shipping Company" = true)
    (h2 : hasCol f "Financial Status" = true) :
    ∃ v, loopBody1 f i = Except.ok v := by
  unfold loopBody1
  rw [cellAt_ok h1 i, cellAt_ok h2 i]
  cases (colCells f "Shipping Company").getD i Cell.null <;>
    simp only [] <;> split_ifs <;> exact ⟨_, rfl⟩

lemma loopBody2_ok (f : RawFrame) (i : Nat)
    (h2 : hasCol f "Financial Status" = true)
    (h3 : hasCol f "Shipping Zip" = true)
    (h4 : hasCol f "Shipping Method" = true) :
    ∃ v, loopBody2 f i = Except.ok v := by
  unfold loopBody2
  rw [cellAt_ok h2 i, cellAt_ok h3 i, cellAt_ok h4 i]
  simp only []
  split_ifs <;> exact ⟨_, rfl⟩

lemma loopBody3_ok (f : RawFrame) (i : Nat)
    (h2 : hasCol f "Financial Status" = true)
    (h3 : hasCol f "Shipping Zip" = true)
    (h4 : hasCol f "Shipping Method" = true) :
    ∃ v, loopBody3 f i = Except.ok v := by
  unfold loopBody3
  rw [cellAt_ok h2 i, cellAt_ok h4 i, cellAt_ok h3 i]
  simp only []
  split_ifs <;> exact ⟨_, rfl⟩

lemma loopBody4_ok (f : RawFrame) (i : Nat)
    (h2 : hasCol f "Financial Status" = true)
    (h5 : hasCol f "Notes" = true)
    (h6 : hasCol f "Shipping Province Name" = true)
    (hsafe : (colCells f "Financial Status").getD i Cell.null = Cell.str "paid" →
      noteSafe ((colCells f "Notes").getD i Cell.null) = true) :
    ∃ v, loopBody4 f i = Except.ok v := by
  unfold loopBody4
  rw [cellAt_ok h5 i, cellAt_ok h2 i, cellAt_ok h6 i]
  simp only []
  by_cases hfs : (colCells f "Financial Status").getD i Cell.null = Cell.str "paid"
  · rw [if_pos hfs]
    have hns := hsafe hfs
    cases hnote : (colCells f "Notes").getD i Cell.null with
    | null => simp only []; split_ifs <;> exact ⟨_, rfl⟩
    | str s => simp only []; split_ifs <;> exact ⟨_, rfl⟩
    | num n =>
        rw [hnote] at hns
        simp [noteSafe] at hns
  · rw [if_neg hfs]
    exact ⟨_, rfl⟩

lemma runLoop_ok {body : Nat → Except String (Option String)} {n : Nat}
    (h : ∀ i ∈ List.range n, ∃ v, body i = Except.ok v) (sts : List String) :
    ∃ out, runLoop body n sts = Except.ok out := by
  obtain ⟨upds, hupds⟩ := mapE_all_ok _ h
  refine ⟨(sts.zip upds).map (fun p => p.2.getD p.1), ?_⟩
  unfold runLoop
  rw [hupds]

lemma procesarArchivoFrame_all_ok (f : RawFrame)
    (hall : requiredCols.all (fun c => hasCol f c) = true)
    (hnotes : ∀ i, i < f.nrows →
      (colCells f "Financial Status").getD i Cell.null = Cell.str "paid" →
      noteSafe ((colCells f "Notes").getD i Cell.null) = true) :
    ∃ v, procesarArchivoFrame f = Except.ok v := by
  have hall2 := List.all_eq_true.mp hall
  have hc_sc : hasCol f "Shipping Company" = true :=
    hall2 "Shipping Company" (by decide)
  have hc_fs : hasCol f "Financial Status" = true :=
    hall2 "Financial Status" (by decide)
  have hc_zip : hasCol f "Shipping Zip" = true :=
    hall2 "Shipping Zip" (by decide)
  have hc_m : hasCol f "Shipping Method" = true :=
    hall2 "Shipping Method" (by decide)
  have hc_n : hasCol f "Notes" = true :=
    hall2 "Notes" (by decide)
  have hc_p : hasCol f "Shipping Province Name" = true :=
    hall2 "Shipping Province Name" (by decide)
  set F2 := setCol f "Shipping Company"
    ((colCells f "Shipping Company").map (fun c => Cell.str (strippedCompany c)))
    with hF2
  have h2sc : hasCol F2 "Shipping Company" = true := by
    rw [hF2, hasCol_setCol]; exact hc_sc
  have h2fs : hasCol F2 "Financial Status" = true := by
    rw [hF2, hasCol_setCol]; exact hc_fs
  have h2zip : hasCol F2 "Shipping Zip" = true := by
    rw [hF2, hasCol_setCol]; exact hc_zip
  have h2m : hasCol F2 "Shipping Method" = true := by
    rw [hF2, hasCol_setCol]; exact hc_m
  have h2n : hasCol F2 "Notes" = true := by
    rw [hF2, hasCol_setCol]; exact hc_n
  have h2p : hasCol F2 "Shipping Province Name" = true := by
    rw [hF2, hasCol_setCol]; exact hc_p
  have hnr : F2.nrows = f.nrows := by rw [hF2]; rfl
  have hfs2 : colCells F2 "Financial Status" = colCells f "Financial Status" := by
    rw [hF2]; exact colCells_setCol_ne _ _ _ _ (by decide)
  have hn2 : colCells F2 "Notes" = colCells f "Notes" := by
    rw [hF2]; exact colCells_setCol_ne _ _ _ _ (by decide)
  have hb1 : ∀ i ∈ List.range F2.nrows, ∃ v, loopBody1 F2 i = Except.ok v :=
    fun i _ => loopBody1_ok F2 i h2sc h2fs
  have hb2 : ∀ i ∈ List.range F2.nrows, ∃ v, loopBody2 F2 i = Except.ok v :=
    fun i _ => loopBody2_ok F2 i h2fs h2zip h2m
  have hb3 : ∀ i ∈ List.range F2.nrows, ∃ v, loopBody3 F2 i = Except.ok v :=
    fun i _ => loopBody3_ok F2 i h2fs h2zip h2m
  have hb4 : ∀ i ∈ List.range F2.nrows, ∃ v, loopBody4 F2 i = Except.ok v := by
    intro i hi
    refine loopBody4_ok F2 i h2fs h2n h2p ?_
    rw [hfs2, hn2]
    exact hnotes i (by rw [← hnr]; exact List.mem_range.mp hi)
  have hu : ∃ us, mapE (fun c => requireCol f c) selectedCols = Except.ok us :=
    mapE_all_ok _ (fun c hc =>
      ⟨(), requireCol_ok (hall2 c (List.mem_append_left _ hc))⟩)
  obtain ⟨us, hus⟩ := hu
  have hrsc : requireCol f "Shipping Company" = Except.ok () := requireCol_ok hc_sc
  obtain ⟨s1, hs1⟩ := runLoop_ok hb1 (List.replicate F2.nrows "")
  obtain ⟨s2, hs2⟩ := runLoop_ok hb2 s1
  obtain ⟨s3, hs3⟩ := runLoop_ok hb3 s2
  obtain ⟨s4, hs4⟩ := runLoop_ok hb4 s3
  simp only [procesarArchivoFrame, hus, hrsc]
  rw [← hF2]
  simp only [hs1, hs2, hs3, hs4]
  exact ⟨_, rfl⟩

lemma procesarArchivoFrame_missing_col (f : RawFrame) (c : String)
    (hc : c ∈ selectedCols) (hmiss : hasCol f c = false) :
    ∃ e, procesarArchivoFrame f = Except.error e := by
  have herr : ∀ b : Unit, (fun c => requireCol f c) c ≠ Except.ok b := by
    intro b hb
    have hb2 : requireCol f c = Except.ok b := hb
    rw [requireCol_err hmiss] at hb2
    cases hb2
  obtain ⟨e, he⟩ : ∃ e, mapE (fun c => requireCol f c) selectedCols =
      Except.error e := mapE_err selectedCols c hc herr
  refine ⟨e, ?_⟩
  simp only [procesarArchivoFrame, he]

/-- C3 counterexample: a frame with every required column present, one row,
paid, whose `'Notes'` cell is a (non-null, non-string) number: the engine
raises AttributeError at `note.strip()`, so "never raises when all required
columns are present" is false. -/
theorem c3_counterexample :
    requiredCols.all (fun c => hasCol cexFrame3 c) = true ∧
    procesarArchivoFrame cexFrame3 =
      Except.error "AttributeError: no strip on a number" :=
  ⟨by decide, by decide⟩

/-- C3 amended: with every required column present AND every paid line's notes
cell null-or-string, the classification/consolidation function returns
normally; when one of the twelve selected columns is absent, it raises (a
KeyError).  (A paid line whose notes cell is a non-null non-string raises even
with all columns present, and with zero rows a missing loop-only column does
not raise, so the original "if and only if" does not hold.) -/
theorem c3_raises_only_for_schema_or_nonstring_notes (f : RawFrame) :
    ((requiredCols.all (fun c => hasCol f c) = true) →
      (∀ i, i < f.nrows →
        (colCells f "Financial Status").getD i Cell.null = Cell.str "paid" →
        noteSafe ((colCells f "Notes").getD i Cell.null) = true) →
      ∃ v, procesarArchivoFrame f = Except.ok v) ∧
    (∀ c ∈ selectedCols, hasCol f c = false →
      ∃ e, procesarArchivoFrame f = Except.error e) :=
  ⟨fun hall hnotes => procesarArchivoFrame_all_ok f hall hnotes,
   fun c hc hmiss => procesarArchivoFrame_missing_col f c hc hmiss⟩

/-- C3 witness: the amended theorem applied to a well-formed one-row frame
(success) and to the same frame with `'Shipping Zip'` removed (KeyError). -/
theorem c3_witness :
    (∃ v, procesarArchivoFrame goodFrame3 = Except.ok v) ∧
    (∃ e, procesarArchivoFrame badFrame3 = Except.error e) :=
  ⟨(c3_raises_only_for_schema_or_nonstring_notes goodFrame3).1 (by decide)
      (fun i hi _ => by
        have h0 : i = 0 := by
          have : goodFrame3.nrows = 1 := by decide
          omega
        subst h0
        decide),
   (c3_raises_only_for_schema_or_nonstring_notes badFrame3).2 "Shipping Zip"
      (by decide) (by decide)⟩
